import Mathlib

/-!
Shallow embedding of the Booli MCP server (TypeScript sources:
`src/client/graphql.ts`, `src/tools/searchProperties.ts`,
`src/tools/searchLocations.ts`, `src/tools/getPropertyDetails.ts`,
`src/types.ts`).

Modelling conventions:
* Optional (possibly `undefined`) TypeScript values become `Option` values.
* JavaScript numbers on the criteria/result paths become `Int` (the code only
  stringifies or compares them), `toString` models JS number stringification.
* JS truthiness tests on strings / numbers / booleans are modelled by the
  `truthyStr` / `truthyInt` / `truthyBool` helpers ( `undefined`, `""`, `0`
  and `false` are falsy).
* `String.prototype.trim` is modelled by `jsTrim` (strip leading and trailing
  whitespace characters).
* The network is an explicit oracle argument; every function that can reach
  the network returns the list of requests it issued next to its result, and
  a thrown JS `Error` is an `Except.error` carrying the message string.
-/

set_option maxHeartbeats 1000000
set_option maxRecDepth 100000

/-- Truthiness of an optional JS string: `undefined` and `""` are falsy. -/
def truthyStr : Option String → Bool
  | some s => !(s == "")
  | none => false

/-- Truthiness of an optional JS number: `undefined` and `0` are falsy. -/
def truthyInt : Option Int → Bool
  | some n => !(n == 0)
  | none => false

/-- Truthiness of an optional JS boolean: `undefined` and `false` are falsy. -/
def truthyBool : Option Bool → Bool
  | some b => b
  | none => false

/-- Model of the JS idiom `x || dflt` for an optional string `x`. -/
def orDefault (o : Option String) (dflt : String) : String :=
  match o with
  | some s => if s == "" then dflt else s
  | none => dflt

/-- Model of `String.prototype.trim`: strip leading and trailing whitespace. -/
def jsTrim (s : String) : String :=
  ⟨((s.data.dropWhile Char.isWhitespace).reverse.dropWhile Char.isWhitespace).reverse⟩

/-- Model of the regular-expression test `/^\d+$/.test s`. -/
def isAllDigits (s : String) : Bool :=
  !s.data.isEmpty && s.data.all (fun c => c.isDigit)

/-- A single key/value filter sent to the upstream API (`graphql.ts`). -/
structure FilterPair where
  key : String
  value : String
deriving DecidableEq, Repr

/-- The `SearchCriteria` record consumed by `buildSearchInput`: the base
interface of `types.ts` plus the extended criteria accessed through the
`(criteria as any)` casts in `graphql.ts`. -/
structure SearchCriteria where
  location : Option String := none
  minPrice : Option Int := none
  maxPrice : Option Int := none
  minRooms : Option Int := none
  maxRooms : Option Int := none
  minArea : Option Int := none
  maxArea : Option Int := none
  propertyType : Option String := none
  minPricePerSqm : Option Int := none
  maxPricePerSqm : Option Int := none
  minPlotArea : Option Int := none
  maxPlotArea : Option Int := none
  minConstructionYear : Option Int := none
  maxConstructionYear : Option Int := none
  maxRent : Option Int := none
  daysActive : Option Int := none
  amenities : Option String := none
  floor : Option String := none
  showOnly : Option String := none
deriving DecidableEq, Repr

/-- The search-input envelope built by `buildSearchInput` (`graphql.ts`). -/
structure SearchInput where
  filters : List FilterPair
  page : Nat
  ascending : Bool
  excludeAncestors : Bool
  areaId : Option String
deriving DecidableEq, Repr

namespace BooliGraphQLClient

/-- One numeric criteria field: `if (x !== undefined) filters.push({key, value: x.toString()})`. -/
def numFilter (key : String) (v : Option Int) : List FilterPair :=
  match v with
  | some n => [{ key := key, value := toString n }]
  | none => []

/-- One string criteria field guarded by truthiness: `if (x) filters.push({key, value: x})`. -/
def strFilter (key : String) (v : Option String) : List FilterPair :=
  match v with
  | some s => if s == "" then [] else [{ key := key, value := s }]
  | none => []

/-- Property-type mapping to Swedish terms (`graphql.ts` lines 202-207). -/
def propertyTypeFilter (pt : Option String) : List FilterPair :=
  if pt = some "apartment" then [{ key := "objectType", value := "Lägenhet" }]
  else if pt = some "house" then [{ key := "objectType", value := "Villa" }]
  else []

/-- Location handling (`graphql.ts` lines 253-263): a truthy location is used
as the `areaId`, through two branches (all-digits area id versus free text)
that assign the same value. -/
def locationAreaId : Option String → Option String
  | some s =>
    if s == "" then none
    else if isAllDigits s then
      some s
    else
      some s
  | none => none

/-- Embedding of `BooliGraphQLClient.buildSearchInput` (`graphql.ts` lines 175-266). -/
def buildSearchInput (criteria : SearchCriteria) : SearchInput :=
  let filters :=
    numFilter "minListPrice" criteria.minPrice ++
    numFilter "maxListPrice" criteria.maxPrice ++
    numFilter "minRooms" criteria.minRooms ++
    numFilter "maxRooms" criteria.maxRooms ++
    numFilter "minLivingArea" criteria.minArea ++
    numFilter "maxLivingArea" criteria.maxArea ++
    propertyTypeFilter criteria.propertyType ++
    numFilter "minListSqmPrice" criteria.minPricePerSqm ++
    numFilter "maxListSqmPrice" criteria.maxPricePerSqm ++
    numFilter "minPlotArea" criteria.minPlotArea ++
    numFilter "maxPlotArea" criteria.maxPlotArea ++
    numFilter "minConstructionYear" criteria.minConstructionYear ++
    numFilter "maxConstructionYear" criteria.maxConstructionYear ++
    numFilter "maxRent" criteria.maxRent ++
    numFilter "daysActive" criteria.daysActive ++
    strFilter "amenities" criteria.amenities ++
    strFilter "floor" criteria.floor ++
    strFilter "showOnly" criteria.showOnly
  { filters := filters
    page := 1
    ascending := false
    excludeAncestors := true
    areaId := locationAreaId criteria.location }

end BooliGraphQLClient

/-- A raw value/formatted pair as returned by the upstream API. -/
structure ValueFormatted where
  value : Option String := none
  formatted : String := ""
deriving DecidableEq, Repr

/-- An amenity entry of a listing. -/
structure Amenity where
  key : String := ""
  label : String := ""
deriving DecidableEq, Repr

/-- The `value` object of a display-attribute data point. -/
structure DataPointValue where
  plainText : Option String := none
deriving DecidableEq, Repr

/-- One display-attribute data point. -/
structure DataPoint where
  value : Option DataPointValue := none
deriving DecidableEq, Repr

/-- The `displayAttributes` object of a listing. -/
structure DisplayAttributes where
  dataPoints : List DataPoint := []
deriving DecidableEq, Repr

/-- The `estimate` object of a listing. -/
structure Estimate where
  price : Option ValueFormatted := none
deriving DecidableEq, Repr

/-- The listing agency object. -/
structure Agency where
  name : Option String := none
  url : Option String := none
  thumbnail : Option String := none
deriving DecidableEq, Repr

/-- The primary-image object of a listing. -/
structure PrimaryImage where
  alt : Option String := none
  url : Option String := none
deriving DecidableEq, Repr

/-- The region object nested inside a property location. -/
structure Region where
  municipalityName : Option String := none
deriving DecidableEq, Repr

/-- The location object of a property result. -/
structure PropLocation where
  region : Option Region := none
deriving DecidableEq, Repr

/-- One property/listing entry of the upstream search result, with the fields
read by the formatters in `searchProperties.ts` and `getPropertyDetails.ts`.
Coordinates are modelled as integers (the code only tests truthiness and
stringifies them). -/
structure Property where
  id : String := ""
  objectType : Option String := none
  streetAddress : Option String := none
  descriptiveAreaName : Option String := none
  location : Option PropLocation := none
  rooms : Option ValueFormatted := none
  livingArea : Option ValueFormatted := none
  plotArea : Option ValueFormatted := none
  listPrice : Option ValueFormatted := none
  listSqmPrice : Option ValueFormatted := none
  rent : Option ValueFormatted := none
  estimate : Option Estimate := none
  daysActive : Option Int := none
  published : Option String := none
  tenureForm : Option String := none
  constructionYear : Option Int := none
  isNewConstruction : Option Bool := none
  amenities : Option (List Amenity) := none
  displayAttributes : Option DisplayAttributes := none
  listPricePercentageDiff : Option Int := none
  biddingOpen : Option Bool := none
  upcomingSale : Option Bool := none
  primaryImage : Option PrimaryImage := none
  blockedImages : Option Bool := none
  agency : Option Agency := none
  nextShowing : Option String := none
  floor : Option String := none
  url : Option String := none
  latitude : Option Int := none
  longitude : Option Int := none
deriving DecidableEq, Repr

/-- The `searchForSale` payload of the upstream response. -/
structure SearchForSaleData where
  totalCount : Int := 0
  result : List Property := []
deriving DecidableEq, Repr

/-- The `data` wrapper of the property-search response. -/
structure ApiData where
  searchForSale : SearchForSaleData
deriving DecidableEq, Repr

/-- The property-search `ApiResponse` shape of `types.ts`. -/
structure ApiResponse where
  data : ApiData
deriving DecidableEq, Repr

/-- One location suggestion of the upstream `areaSuggestionSearch` response. -/
structure LocationSuggestion where
  id : String := ""
  displayName : String := ""
  parent : Option String := none
  parentType : Option String := none
  parentDisplayName : Option String := none
  parentTypeDisplayName : Option String := none
  parentId : Option String := none
deriving DecidableEq, Repr

/-- The `areaSuggestionSearch` payload of the upstream response. -/
structure AreaSuggestionSearch where
  suggestions : List LocationSuggestion := []
deriving DecidableEq, Repr

/-- The `data` wrapper of the location-search response. -/
structure LocationData where
  areaSuggestionSearch : AreaSuggestionSearch
deriving DecidableEq, Repr

/-- The location-search `LocationApiResponse` shape of `types.ts`. -/
structure LocationApiResponse where
  data : LocationData
deriving DecidableEq, Repr

namespace BooliGraphQLClient

/-- Embedding of `BooliGraphQLClient.searchForSale` (`graphql.ts` lines 61-163): builds the
search input, issues exactly one request against the network oracle, wraps a
successful payload into an `ApiResponse` and re-throws a failure with the
fixed prefix `Failed to search properties: `. -/
def searchForSale (net : SearchInput → Except String SearchForSaleData)
    (criteria : SearchCriteria) : List SearchInput × Except String ApiResponse :=
  let searchInput := buildSearchInput criteria
  match net searchInput with
  | Except.ok r => ([searchInput], Except.ok { data := { searchForSale := r } })
  | Except.error e => ([searchInput], Except.error ("Failed to search properties: " ++ e))

/-- Embedding of `BooliGraphQLClient.searchLocations` (`graphql.ts` lines 317-347): issues
exactly one request for the query, wraps success, and re-throws a failure with
the fixed prefix `Failed to search locations: `. -/
def searchLocations (net : String → Except String AreaSuggestionSearch)
    (query : String) : List String × Except String LocationApiResponse :=
  match net query with
  | Except.ok r => ([query], Except.ok { data := { areaSuggestionSearch := r } })
  | Except.error e => ([query], Except.error ("Failed to search locations: " ++ e))

/-- Embedding of `BooliGraphQLClient.getPropertyDetails` (`graphql.ts` lines 360-366):
throws the unsupported-operation error unconditionally, before any network
request is made (the request log is always empty). -/
def getPropertyDetails (propertyId : String) : List SearchInput × Except String ApiResponse :=
  ([], Except.error
    ("Direct property lookup by ID is not supported by Booli\u0027s API. Property ID " ++
     propertyId ++
     " cannot be retrieved directly. Please use the search_properties tool with location or other filters to find properties, then reference the detailed information from the search results."))

end BooliGraphQLClient

/-- One MCP content block (always of type `text` in this server). -/
structure McpContent where
  type : String
  text : String
deriving DecidableEq, Repr

/-- An MCP tool response; a missing `isError` field is modelled as `false`. -/
structure McpResponse where
  content : List McpContent
  isError : Bool := false
deriving DecidableEq, Repr

/-- The JS idiom `args.limit || 10` (a falsy limit falls back to the default). -/
def resolveLimit (limit : Option Nat) : Nat :=
  match limit with
  | some n => if n == 0 then 10 else n
  | none => 10

namespace Tools

/-- Arguments of the `search_properties` tool (`searchProperties.ts`). -/
structure SearchPropertiesArgs where
  location : Option String := none
  minPrice : Option Int := none
  maxPrice : Option Int := none
  minRooms : Option Int := none
  maxRooms : Option Int := none
  minArea : Option Int := none
  maxArea : Option Int := none
  propertyType : Option String := none
  minPricePerSqm : Option Int := none
  maxPricePerSqm : Option Int := none
  minPlotArea : Option Int := none
  maxPlotArea : Option Int := none
  minConstructionYear : Option Int := none
  maxConstructionYear : Option Int := none
  maxRent : Option Int := none
  daysActive : Option Int := none
  amenities : Option String := none
  floor : Option String := none
  showOnly : Option String := none
  limit : Option Nat := none
deriving DecidableEq, Repr

/-- The criteria object built from the tool arguments
(`searchProperties.ts` lines 56-79): a field-by-field copy. -/
def criteriaOf (args : SearchPropertiesArgs) : SearchCriteria :=
  { location := args.location
    minPrice := args.minPrice
    maxPrice := args.maxPrice
    minRooms := args.minRooms
    maxRooms := args.maxRooms
    minArea := args.minArea
    maxArea := args.maxArea
    propertyType := args.propertyType
    minPricePerSqm := args.minPricePerSqm
    maxPricePerSqm := args.maxPricePerSqm
    minPlotArea := args.minPlotArea
    maxPlotArea := args.maxPlotArea
    minConstructionYear := args.minConstructionYear
    maxConstructionYear := args.maxConstructionYear
    maxRent := args.maxRent
    daysActive := args.daysActive
    amenities := args.amenities
    floor := args.floor
    showOnly := args.showOnly }

/-- The per-property description built by the `.map` callback of
`searchProperties.ts` (lines 114-238), translated condition by condition. -/
def formatProperty (index : Nat) (property : Property) : String :=
  let d := toString (index + 1) ++ ". " ++ orDefault property.objectType "Property" ++
    " - ID: " ++ property.id
  let d := if truthyStr property.streetAddress then
      d ++ "\n   📍 Address: " ++ property.streetAddress.getD "" else d
  let d := if truthyStr property.descriptiveAreaName then
      d ++ "\n   🏘️  Area: " ++ property.descriptiveAreaName.getD "" else d
  let mun := (property.location.bind PropLocation.region).bind Region.municipalityName
  let d := if truthyStr mun then d ++ " (" ++ mun.getD "" ++ ")" else d
  let d := if truthyStr (property.rooms.map ValueFormatted.formatted) then
      d ++ "\n   🏠 Rooms: " ++ (property.rooms.map ValueFormatted.formatted).getD "" else d
  let d := if truthyStr (property.livingArea.map ValueFormatted.formatted) then
      d ++ "\n   📐 Living Area: " ++ (property.livingArea.map ValueFormatted.formatted).getD "" else d
  let d := if truthyStr (property.plotArea.map ValueFormatted.formatted) then
      d ++ "\n   🌿 Plot Area: " ++ (property.plotArea.map ValueFormatted.formatted).getD "" else d
  let d := if truthyStr (property.listPrice.map ValueFormatted.formatted) then
      d ++ "\n   💰 List Price: " ++ (property.listPrice.map ValueFormatted.formatted).getD "" else d
  let d := if truthyStr (property.listSqmPrice.map ValueFormatted.formatted) then
      d ++ "\n   📊 Price per m²: " ++ (property.listSqmPrice.map ValueFormatted.formatted).getD "" else d
  let est := (property.estimate.bind Estimate.price).map ValueFormatted.formatted
  let d := if truthyStr est then d ++ "\n   📈 Estimated Value: " ++ est.getD "" else d
  let d := if property.daysActive.isSome then
      d ++ "\n   ⏰ Days Active: " ++ toString (property.daysActive.getD 0) else d
  let d := if truthyStr property.published then
      d ++ "\n   📅 Published: " ++ property.published.getD "" else d
  let d := if truthyStr property.tenureForm then
      d ++ "\n   📋 Tenure: " ++ property.tenureForm.getD "" else d
  let d := if truthyInt property.constructionYear then
      d ++ "\n   🏗️  Built: " ++ toString (property.constructionYear.getD 0) else d
  let d := if truthyBool property.isNewConstruction then d ++ "\n   ✨ New Construction" else d
  let d := match property.amenities with
    | some l =>
      if l.length > 0 then
        d ++ "\n   🏖️  Amenities: " ++ String.intercalate ", " (l.map Amenity.label)
      else d
    | none => d
  let d := match property.displayAttributes with
    | some da =>
      if da.dataPoints.length > 0 then
        let additionalInfo := String.intercalate " • "
          (da.dataPoints.filterMap fun dp =>
            match (dp.value.bind DataPointValue.plainText) with
            | some t => if t == "" then none else some t
            | none => none)
        if additionalInfo == "" then d else d ++ "\n   ℹ️  Details: " ++ additionalInfo
      else d
    | none => d
  let d := match property.listPricePercentageDiff with
    | some diff =>
      let changeIcon := if diff > 0 then "📈" else "📉"
      d ++ "\n   " ++ changeIcon ++ " Price Change: " ++
        (if diff > 0 then "+" else "") ++ toString diff ++ "%"
    | none => d
  let d := if truthyBool property.biddingOpen then d ++ "\n   🔥 Bidding Open" else d
  let d := if truthyBool property.upcomingSale then d ++ "\n   ⏳ Upcoming Sale" else d
  let d := match property.primaryImage with
    | some img => d ++ "\n   📸 Image: " ++ orDefault img.alt "Available"
    | none => d
  let d := if property.blockedImages = some false then d ++ "\n   🖼️  Images: Available"
    else if property.blockedImages = some true then d ++ "\n   🚫 Images: Blocked"
    else d
  let d := match property.agency with
    | some agency =>
      if truthyStr agency.name then
        let d := d ++ "\n   🏢 Agency: " ++ agency.name.getD ""
        let d := if truthyStr agency.url then d ++ "\n   🔗 Agency: " ++ agency.url.getD "" else d
        if truthyStr agency.thumbnail then d ++ "\n   🖼️  Agency Logo: Available" else d
      else d
    | none => d
  let d := if truthyStr property.nextShowing then
      d ++ "\n   👁️  Next Showing: " ++ property.nextShowing.getD "" else d
  let d := if truthyStr property.url then
      d ++ "\n   🔗 View Property: https://www.booli.se" ++ property.url.getD "" else d
  let d := if truthyInt property.latitude && truthyInt property.longitude then
      d ++ "\n   🗺️  Coordinates: " ++ toString (property.latitude.getD 0) ++ ", " ++
        toString (property.longitude.getD 0)
    else d
  d

/-- The result summary of `searchProperties.ts` (lines 104-111). -/
def propertiesSummary (totalCount : Int) (location : Option String) (limit : Nat) : String :=
  let summary := "Found " ++ toString totalCount ++ " properties"
  let summary := if truthyStr location then summary ++ (" in " ++ location.getD "") else summary
  let summary := if (limit : Int) < totalCount then
      summary ++ (" (showing first " ++ toString limit ++ ")") else summary
  summary ++ ":\n\n"

/-- The `searchProperties` MCP tool (`searchProperties.ts` lines 52-264),
returning the issued network requests next to the MCP response. -/
def searchProperties (net : SearchInput → Except String SearchForSaleData)
    (args : SearchPropertiesArgs) : List SearchInput × McpResponse :=
  let criteria := criteriaOf args
  let limit := resolveLimit args.limit
  let (reqs, res) := BooliGraphQLClient.searchForSale net criteria
  match res with
  | Except.error msg =>
    let text := "Error searching for properties: " ++ msg
    (reqs, { content := [{ type := "text", text := text }], isError := true })
  | Except.ok response =>
    if response.data.searchForSale.result.length == 0 then
      let text := "No properties found matching your criteria in " ++
        orDefault criteria.location "the specified area" ++ "."
      (reqs, { content := [{ type := "text", text := text }] })
    else
      let properties := response.data.searchForSale.result.take limit
      let totalCount := response.data.searchForSale.totalCount
      let summary := propertiesSummary totalCount criteria.location limit
      let propertyList := String.intercalate "\n\n" (properties.mapIdx formatProperty)
      (reqs, { content := [{ type := "text", text := summary ++ propertyList }] })

/-- Arguments of the `search_locations` tool (`searchLocations.ts`); a missing
or non-string `query` is modelled as `none`. -/
structure SearchLocationsArgs where
  query : Option String := none
  limit : Option Nat := none
deriving DecidableEq, Repr

/-- The per-location description built by the `.map` callback of
`searchLocations.ts` (lines 103-127). -/
def formatLocation (index : Nat) (location : LocationSuggestion) : String :=
  let description := toString (index + 1) ++ ". **" ++ location.displayName ++
    "** (ID: " ++ location.id ++ ")"
  let description := if truthyStr location.parent && truthyStr location.parentDisplayName then
      description ++ "\n   📍 Located in: " ++ location.parentDisplayName.getD ""
    else description
  let description := if truthyStr location.parentTypeDisplayName then
      description ++ "\n   🏛️  Type: " ++ location.parentTypeDisplayName.getD ""
    else description
  let description := if truthyStr location.parentId then
      description ++ "\n   🔗 Parent ID: " ++ location.parentId.getD ""
    else description
  description ++ "\n   💡 Use this ID (" ++ location.id ++ ") for property searches in this area"

/-- The result summary of `searchLocations.ts` (lines 96-100). -/
def locationsSummary (totalCount limit : Nat) (query : String) : String :=
  let summary := "Found " ++ toString totalCount ++ " location suggestions for \"" ++ query ++ "\""
  let summary := if limit < totalCount then
      summary ++ (" (showing first " ++ toString limit ++ ")") else summary
  summary ++ ":\n\n"

/-- The fixed usage hint appended by `searchLocations.ts` (lines 130-133). -/
def locationsUsageHint : String :=
  "\n\n**How to use these results:**\n" ++
  "• Copy the ID number to use in property searches\n" ++
  "• Example: search_properties with location=\"509\" for Ektorp\n" ++
  "• Larger areas (like municipalities) will show more properties"

/-- The `searchLocations` MCP tool (`searchLocations.ts` lines 32-157),
returning the issued network requests next to the MCP response. -/
def searchLocations (net : String → Except String AreaSuggestionSearch)
    (args : SearchLocationsArgs) : List String × McpResponse :=
  let requiredError : McpResponse :=
    { content := [{ type := "text", text := "Error: Query parameter is required and must be a non-empty string." }], isError := true }
  match args.query with
  | none => ([], requiredError)
  | some q =>
    if q == "" then ([], requiredError)
    else
      let query := jsTrim q
      if query.length == 0 then
        ([], { content := [{ type := "text", text := "Error: Search query cannot be empty." }], isError := true })
      else if query.length < 2 then
        ([], { content := [{ type := "text", text := "Error: Search query must be at least 2 characters long." }], isError := true })
      else
        let limit := resolveLimit args.limit
        let (reqs, res) := BooliGraphQLClient.searchLocations net query
        match res with
        | Except.error msg =>
          let text := "Error searching for locations: " ++ msg
          (reqs, { content := [{ type := "text", text := text }], isError := true })
        | Except.ok response =>
          if response.data.areaSuggestionSearch.suggestions.length == 0 then
            let text := "No locations found matching \"" ++ query ++
              "\". Try a different search term or check the spelling."
            (reqs, { content := [{ type := "text", text := text }] })
          else
            let locations := response.data.areaSuggestionSearch.suggestions.take limit
            let totalCount := response.data.areaSuggestionSearch.suggestions.length
            let summary := locationsSummary totalCount limit query
            let locationList := String.intercalate "\n\n" (locations.mapIdx formatLocation)
            (reqs, { content := [{ type := "text", text := summary ++ locationList ++ locationsUsageHint }] })

/-- Arguments of the `get_property_details` tool (`getPropertyDetails.ts`); a
missing or non-string `propertyId` is modelled as `none`. -/
structure GetPropertyDetailsArgs where
  propertyId : Option String := none
deriving DecidableEq, Repr

/-- The explanatory guidance text returned by `getPropertyDetails.ts`
(lines 82-95) when the client signals the direct-lookup limitation. -/
def propertyDetailGuidanceHead : String :=
  "**🚧 Property Detail Limitation**\n\nUnfortunately, direct property lookup by ID ("

def propertyDetailGuidanceTail : String :=
  ") is not supported by Booli\u0027s GraphQL API. The API requires location-based searches with additional filters.\n\n" ++
  "**🔍 Alternative Approach:**\n" ++
  "1. Use the `search_locations` tool to find area IDs for your target location\n" ++
  "2. Use the `search_properties` tool with location filters to find properties\n" ++
  "3. The search results include detailed information for each property\n\n" ++
  "**💡 Pro Tip:** Property search results already contain comprehensive details including:\n" ++
  "• Property specifications (rooms, area, price)\n" ++
  "• Location information and coordinates\n" ++
  "• Agency details and contact information\n" ++
  "• Amenities and property features\n" ++
  "• Direct links to view on Booli.se\n\n" ++
  "This approach provides the same detailed information through the search functionality."

def propertyDetailGuidance (propertyId : String) : String :=
  propertyDetailGuidanceHead ++ propertyId ++ propertyDetailGuidanceTail

/-- The detail rendering of `getPropertyDetails.ts` (lines 101-259); it is
only reachable if the client ever returned a successful response. -/
def formatPropertyDetails (property : Property) : String :=
  let d := "**🏠 Property Details - ID: " ++ property.id ++ "**\n\n"
  let d := if truthyStr property.objectType then
      d ++ "🏷️  **Type**: " ++ property.objectType.getD "" ++ "\n" else d
  let d := if truthyStr property.streetAddress then
      let d := d ++ "📍 **Address**: " ++ property.streetAddress.getD ""
      let d := if truthyStr property.descriptiveAreaName then
          d ++ ", " ++ property.descriptiveAreaName.getD "" else d
      let mun := (property.location.bind PropLocation.region).bind Region.municipalityName
      let d := if truthyStr mun then d ++ " (" ++ mun.getD "" ++ ")" else d
      d ++ "\n"
    else d
  let d := if truthyStr (property.rooms.map ValueFormatted.formatted) then
      d ++ "🚪 **Rooms**: " ++ (property.rooms.map ValueFormatted.formatted).getD "" ++ "\n" else d
  let d := if truthyStr (property.livingArea.map ValueFormatted.formatted) then
      d ++ "📐 **Living Area**: " ++ (property.livingArea.map ValueFormatted.formatted).getD "" ++ "\n" else d
  let d := if truthyStr (property.plotArea.map ValueFormatted.formatted) then
      d ++ "🌿 **Plot Area**: " ++ (property.plotArea.map ValueFormatted.formatted).getD "" ++ "\n" else d
  let d := if truthyStr property.floor then
      d ++ "🏢 **Floor**: " ++ property.floor.getD "" ++ "\n" else d
  let d := if truthyInt property.constructionYear then
      d ++ "🏗️  **Built**: " ++ toString (property.constructionYear.getD 0) ++ "\n" else d
  let d := d ++ "\n**💰 Pricing Information**\n"
  let d := if truthyStr (property.listPrice.map ValueFormatted.formatted) then
      d ++ "💵 **List Price**: " ++ (property.listPrice.map ValueFormatted.formatted).getD "" ++ "\n" else d
  let d := if truthyStr (property.listSqmPrice.map ValueFormatted.formatted) then
      d ++ "📊 **Price per m²**: " ++ (property.listSqmPrice.map ValueFormatted.formatted).getD "" ++ "\n" else d
  let d := if truthyStr (property.rent.map ValueFormatted.formatted) then
      d ++ "🏠 **Monthly Rent**: " ++ (property.rent.map ValueFormatted.formatted).getD "" ++ "\n" else d
  let est := (property.estimate.bind Estimate.price).map ValueFormatted.formatted
  let d := if truthyStr est then d ++ "📈 **Estimated Value**: " ++ est.getD "" ++ "\n" else d
  let d := if truthyStr property.tenureForm then
      d ++ "\n📋 **Tenure Form**: " ++ property.tenureForm.getD "" ++ "\n" else d
  let d := if property.daysActive.isSome then
      d ++ "⏰ **Days Active**: " ++ toString (property.daysActive.getD 0) ++ " days\n" else d
  let d := if truthyStr property.published then
      d ++ "📅 **Published**: " ++ property.published.getD "" ++ "\n" else d
  let d := match property.listPricePercentageDiff with
    | some diff =>
      let changeIcon := if diff > 0 then "📈" else "📉"
      d ++ changeIcon ++ " **Price Change**: " ++ (if diff > 0 then "+" else "") ++
        toString diff ++ "%\n"
    | none => d
  let d := if truthyBool property.biddingOpen then d ++ "🔥 **Bidding**: Open\n" else d
  let d := if truthyBool property.upcomingSale then d ++ "⏳ **Upcoming Sale**: Yes\n" else d
  let d := if truthyBool property.isNewConstruction then d ++ "✨ **New Construction**: Yes\n" else d
  let d := match property.amenities with
    | some l =>
      if l.length > 0 then
        d ++ "\n**🏖️  Amenities & Features**\n" ++
          String.intercalate "\n" (l.map fun a => "• " ++ a.label) ++ "\n"
      else d
    | none => d
  let d := match property.displayAttributes with
    | some da =>
      if da.dataPoints.length > 0 then
        let additionalInfo := String.intercalate " • "
          (da.dataPoints.filterMap fun dp =>
            match (dp.value.bind DataPointValue.plainText) with
            | some t => if t == "" then none else some t
            | none => none)
        if additionalInfo == "" then d
        else d ++ "\n**ℹ️  Additional Details**\n" ++ additionalInfo ++ "\n"
      else d
    | none => d
  let d := match property.agency with
    | some agency =>
      if truthyStr agency.name then
        let d := d ++ "\n**🏢 Real Estate Agency**\n"
        let d := d ++ "📛 **Name**: " ++ agency.name.getD "" ++ "\n"
        let d := if truthyStr agency.url then
            d ++ "🔗 **Website**: " ++ agency.url.getD "" ++ "\n" else d
        if truthyStr agency.thumbnail then d ++ "🖼️  **Logo**: Available\n" else d
      else d
    | none => d
  let d := if truthyStr property.nextShowing then
      d ++ "\n👁️  **Next Showing**: " ++ property.nextShowing.getD "" ++ "\n" else d
  let d := d ++ "\n**📸 Images & Media**\n"
  let d := match property.primaryImage with
    | some img =>
      let d := d ++ "🖼️  **Primary Image**: " ++ orDefault img.alt "Available" ++ "\n"
      if truthyStr img.url then d ++ "🔗 **Image URL**: " ++ img.url.getD "" ++ "\n" else d
    | none => d
  let d := if property.blockedImages = some false then d ++ "✅ **Image Access**: Available\n"
    else if property.blockedImages = some true then d ++ "🚫 **Image Access**: Blocked\n"
    else d
  let d := if truthyInt property.latitude && truthyInt property.longitude then
      d ++ "\n🗺️  **Coordinates**: " ++ toString (property.latitude.getD 0) ++ ", " ++
        toString (property.longitude.getD 0) ++ "\n"
    else d
  let d := if truthyStr property.url then
      d ++ "\n🔗 **View on Booli**: https://www.booli.se" ++ property.url.getD "" ++ "\n" else d
  let d := d ++ "\n**💡 Usage Tips**\n"
  let d := d ++ "• Use the Booli link above for photos and detailed floor plans\n"
  let d := d ++ "• Contact the listed agency for viewing appointments\n"
  d ++ "• Check the coordinates for location mapping and nearby amenities"

/-- The `getPropertyDetails` MCP tool (`getPropertyDetails.ts` lines 29-299),
returning the issued network requests next to the MCP response. -/
def getPropertyDetails (args : GetPropertyDetailsArgs) : List SearchInput × McpResponse :=
  let requiredError : McpResponse :=
    { content := [{ type := "text", text := "Error: Property ID parameter is required and must be a non-empty string." }], isError := true }
  match args.propertyId with
  | none => ([], requiredError)
  | some pid =>
    if pid == "" then ([], requiredError)
    else
      let propertyId := jsTrim pid
      if propertyId.length == 0 then
        ([], { content := [{ type := "text", text := "Error: Property ID cannot be empty." }], isError := true })
      else if !(isAllDigits propertyId) then
        ([], { content := [{ type := "text", text := "Error: Property ID must be a numeric value (e.g., \"12345\")." }], isError := true })
      else
        let (reqs, res) := BooliGraphQLClient.getPropertyDetails propertyId
        match res with
        | Except.error _ =>
          (reqs, { content := [{ type := "text", text := propertyDetailGuidance propertyId }] })
        | Except.ok response =>
          let property := response.data.searchForSale.result.headD {}
          (reqs, { content := [{ type := "text", text := formatPropertyDetails property }] })

end Tools

/-- Substring containment: `needle` occurs contiguously inside `hay`. -/
def strContains (hay needle : String) : Prop :=
  ∃ pre post : String, hay = pre ++ needle ++ post

/-- Checks that the first list starts the second list. -/
def leadsWith : List Char → List Char → Bool
  | [], _ => true
  | _ :: _, [] => false
  | a :: as, b :: bs => (a == b) && leadsWith as bs

/-- Decidable substring check used to certify `strContains` facts. -/
def containsSub (hay needle : String) : Bool :=
  (List.range (hay.data.length + 1)).any fun i => leadsWith needle.data (hay.data.drop i)

/-- A concrete criteria value exercising every zero/empty boundary case:
all numeric fields are explicit `0`, all truthiness-tested strings are `""`. -/
def claim1W : SearchCriteria :=
  { minPrice := some 0
    maxPrice := some 0
    minRooms := some 0
    maxRooms := some 0
    minArea := some 0
    maxArea := some 0
    minPricePerSqm := some 0
    maxPricePerSqm := some 0
    minPlotArea := some 0
    maxPlotArea := some 0
    minConstructionYear := some 0
    maxConstructionYear := some 0
    maxRent := some 0
    daysActive := some 0
    amenities := some ""
    floor := some ""
    showOnly := some "" }

/-- Concrete location-search payload with three suggestions. -/
def d8L : AreaSuggestionSearch := { suggestions := [{}, {}, {}] }

/-- Concrete location-search arguments requesting at most two entries. -/
def args8L : Tools.SearchLocationsArgs := { query := some "sto", limit := some 2 }

/-- Concrete property-search payload: total count five, three entries. -/
def d8P : SearchForSaleData := { totalCount := 5, result := [{}, {}, {}] }

/-- Concrete property-search arguments requesting at most two entries. -/
def args8P : Tools.SearchPropertiesArgs := { limit := some 2 }

theorem strContains_refl (n : String) : strContains n n :=
  ⟨"", "", by rw [String.empty_append, String.append_empty]⟩

theorem strContains_append_left {a n : String} (b : String) (h : strContains a n) :
    strContains (a ++ b) n := by
  obtain ⟨pre, post, rfl⟩ := h
  exact ⟨pre, post ++ b, by rw [String.append_assoc, String.append_assoc]⟩

theorem strContains_append_right {b n : String} (a : String) (h : strContains b n) :
    strContains (a ++ b) n := by
  obtain ⟨pre, post, rfl⟩ := h
  exact ⟨a ++ pre, post, by simp [String.append_assoc]⟩

theorem strContains_prefix (n post : String) : strContains (n ++ post) n :=
  strContains_append_left post (strContains_refl n)

theorem strContains_of_eq {a b n : String} (h : a = b) (hb : strContains b n) :
    strContains a n := h ▸ hb

theorem strContains_empty (hay : String) : strContains hay "" :=
  ⟨"", hay, by rw [String.append_empty, String.empty_append]⟩

theorem leadsWith_append {n l : List Char} (h : leadsWith n l = true) :
    ∃ t, l = n ++ t := by
  induction n generalizing l with
  | nil => exact ⟨l, rfl⟩
  | cons a as ih =>
    cases l with
    | nil => simp [leadsWith] at h
    | cons b bs =>
      simp only [leadsWith, Bool.and_eq_true, beq_iff_eq] at h
      obtain ⟨rfl, ht⟩ := h
      obtain ⟨t, rfl⟩ := ih ht
      exact ⟨t, rfl⟩

theorem strContains_of_containsSub {hay needle : String}
    (h : containsSub hay needle = true) : strContains hay needle := by
  simp only [containsSub, List.any_eq_true, List.mem_range] at h
  obtain ⟨i, _hi, hp⟩ := h
  obtain ⟨t, ht⟩ := leadsWith_append hp
  refine ⟨⟨hay.data.take i⟩, ⟨t⟩, ?_⟩
  apply String.ext
  simp only [String.data_append]
  rw [List.append_assoc, ← ht, List.take_append_drop]

theorem toString_intZero : toString (0 : Int) = "0" := rfl

theorem mem_numFilter_key {p : FilterPair} {k : String} {v : Option Int}
    (h : p ∈ BooliGraphQLClient.numFilter k v) : p.key = k := by
  cases v with
  | none => simp [BooliGraphQLClient.numFilter] at h
  | some n =>
    simp [BooliGraphQLClient.numFilter] at h
    simp [h]

theorem mem_strFilter_key {p : FilterPair} {k : String} {v : Option String}
    (h : p ∈ BooliGraphQLClient.strFilter k v) : p.key = k := by
  cases v with
  | none => simp [BooliGraphQLClient.strFilter] at h
  | some s =>
    by_cases hs : s == ""
    · simp [BooliGraphQLClient.strFilter, hs] at h
    · simp [BooliGraphQLClient.strFilter, hs] at h
      simp [h]

theorem filters_objectType_mem {c : SearchCriteria} {p : FilterPair}
    (hp : p ∈ (BooliGraphQLClient.buildSearchInput c).filters) (hk : p.key = "objectType") :
    p ∈ BooliGraphQLClient.propertyTypeFilter c.propertyType := by
  simp only [BooliGraphQLClient.buildSearchInput, List.mem_append, or_assoc] at hp
  rcases hp with h|h|h|h|h|h|h|h|h|h|h|h|h|h|h|h|h|h
  all_goals first
    | exact h
    | (rw [mem_numFilter_key h] at hk; exact absurd hk (by decide))
    | (rw [mem_strFilter_key h] at hk; exact absurd hk (by decide))

/-- C1, counterexample: the claim says a criteria field present with an
empty-string value yields its FilterPair with value `""`; but `amenities` is
tested with truthiness, so `amenities = ""` yields no pair at all. -/
theorem claim1_counterexample :
    ¬ (({ key := "amenities", value := "" } : FilterPair) ∈
      (BooliGraphQLClient.buildSearchInput { amenities := some "" }).filters) := by decide

/-- C1, amended: every numeric criteria field is tested with a not-undefined
check, so a present numeric `0` yields its FilterPair with string value `"0"`;
the string-valued fields `amenities`, `floor` and `showOnly` are tested with
truthiness, so a present empty string behaves exactly like an absent field. -/
theorem claim1_amended (c : SearchCriteria) :
    (c.minPrice = some 0 → ({ key := "minListPrice", value := "0" } : FilterPair) ∈
      (BooliGraphQLClient.buildSearchInput c).filters) ∧
    (c.maxPrice = some 0 → ({ key := "maxListPrice", value := "0" } : FilterPair) ∈
      (BooliGraphQLClient.buildSearchInput c).filters) ∧
    (c.minRooms = some 0 → ({ key := "minRooms", value := "0" } : FilterPair) ∈
      (BooliGraphQLClient.buildSearchInput c).filters) ∧
    (c.maxRooms = some 0 → ({ key := "maxRooms", value := "0" } : FilterPair) ∈
      (BooliGraphQLClient.buildSearchInput c).filters) ∧
    (c.minArea = some 0 → ({ key := "minLivingArea", value := "0" } : FilterPair) ∈
      (BooliGraphQLClient.buildSearchInput c).filters) ∧
    (c.maxArea = some 0 → ({ key := "maxLivingArea", value := "0" } : FilterPair) ∈
      (BooliGraphQLClient.buildSearchInput c).filters) ∧
    (c.minPricePerSqm = some 0 → ({ key := "minListSqmPrice", value := "0" } : FilterPair) ∈
      (BooliGraphQLClient.buildSearchInput c).filters) ∧
    (c.maxPricePerSqm = some 0 → ({ key := "maxListSqmPrice", value := "0" } : FilterPair) ∈
      (BooliGraphQLClient.buildSearchInput c).filters) ∧
    (c.minPlotArea = some 0 → ({ key := "minPlotArea", value := "0" } : FilterPair) ∈
      (BooliGraphQLClient.buildSearchInput c).filters) ∧
    (c.maxPlotArea = some 0 → ({ key := "maxPlotArea", value := "0" } : FilterPair) ∈
      (BooliGraphQLClient.buildSearchInput c).filters) ∧
    (c.minConstructionYear = some 0 → ({ key := "minConstructionYear", value := "0" } : FilterPair) ∈
      (BooliGraphQLClient.buildSearchInput c).filters) ∧
    (c.maxConstructionYear = some 0 → ({ key := "maxConstructionYear", value := "0" } : FilterPair) ∈
      (BooliGraphQLClient.buildSearchInput c).filters) ∧
    (c.maxRent = some 0 → ({ key := "maxRent", value := "0" } : FilterPair) ∈
      (BooliGraphQLClient.buildSearchInput c).filters) ∧
    (c.daysActive = some 0 → ({ key := "daysActive", value := "0" } : FilterPair) ∈
      (BooliGraphQLClient.buildSearchInput c).filters) ∧
    (c.amenities = some "" →
      BooliGraphQLClient.buildSearchInput c =
        BooliGraphQLClient.buildSearchInput { c with amenities := none }) ∧
    (c.floor = some "" →
      BooliGraphQLClient.buildSearchInput c =
        BooliGraphQLClient.buildSearchInput { c with floor := none }) ∧
    (c.showOnly = some "" →
      BooliGraphQLClient.buildSearchInput c =
        BooliGraphQLClient.buildSearchInput { c with showOnly := none }) := by
  refine ⟨?_, ?_, ?_, ?_, ?_, ?_, ?_, ?_, ?_, ?_, ?_, ?_, ?_, ?_, ?_, ?_, ?_⟩
  all_goals intro h
  all_goals simp [BooliGraphQLClient.buildSearchInput, BooliGraphQLClient.numFilter,
    BooliGraphQLClient.strFilter, h, toString_intZero]

/-- C1, witness for the amended theorem: a criteria value with every numeric
field set to `0` and every truthiness-tested string field set to `""`. -/
theorem claim1_amended_witness :
    (({ key := "minListPrice", value := "0" } : FilterPair) ∈
      (BooliGraphQLClient.buildSearchInput claim1W).filters) ∧
    (({ key := "daysActive", value := "0" } : FilterPair) ∈
      (BooliGraphQLClient.buildSearchInput claim1W).filters) ∧
    BooliGraphQLClient.buildSearchInput claim1W =
      BooliGraphQLClient.buildSearchInput { claim1W with amenities := none } ∧
    BooliGraphQLClient.buildSearchInput claim1W =
      BooliGraphQLClient.buildSearchInput { claim1W with floor := none } ∧
    BooliGraphQLClient.buildSearchInput claim1W =
      BooliGraphQLClient.buildSearchInput { claim1W with showOnly := none } := by
  have h := claim1_amended claim1W
  exact ⟨h.1 rfl, h.2.2.2.2.2.2.2.2.2.2.2.2.2.1 rfl,
    h.2.2.2.2.2.2.2.2.2.2.2.2.2.2.1 rfl,
    h.2.2.2.2.2.2.2.2.2.2.2.2.2.2.2.1 rfl,
    h.2.2.2.2.2.2.2.2.2.2.2.2.2.2.2.2 rfl⟩

/-- C2: the envelope always has page 1, descending sort and ancestor
exclusion, and an all-absent criteria yields no filters and no area id. -/
theorem claim2_fixed_envelope :
    (∀ c : SearchCriteria, (BooliGraphQLClient.buildSearchInput c).page = 1 ∧
      (BooliGraphQLClient.buildSearchInput c).ascending = false ∧
      (BooliGraphQLClient.buildSearchInput c).excludeAncestors = true) ∧
    (BooliGraphQLClient.buildSearchInput {}).filters = [] ∧
    (BooliGraphQLClient.buildSearchInput {}).areaId = none :=
  ⟨fun _ => ⟨rfl, rfl, rfl⟩, by decide, by decide⟩

/-- C3: `propertyType = "apartment"` emits the `objectType` pair `Lägenhet`,
`"house"` emits `Villa`, and any other value (including absence) emits no
`objectType` pair at all. -/
theorem claim3_propertyType (c : SearchCriteria) :
    (c.propertyType = some "apartment" →
      ({ key := "objectType", value := "Lägenhet" } : FilterPair) ∈
        (BooliGraphQLClient.buildSearchInput c).filters) ∧
    (c.propertyType = some "house" →
      ({ key := "objectType", value := "Villa" } : FilterPair) ∈
        (BooliGraphQLClient.buildSearchInput c).filters) ∧
    (c.propertyType ≠ some "apartment" → c.propertyType ≠ some "house" →
      ∀ p ∈ (BooliGraphQLClient.buildSearchInput c).filters, p.key ≠ "objectType") := by
  refine ⟨?_, ?_, ?_⟩
  · intro h
    simp [BooliGraphQLClient.buildSearchInput, BooliGraphQLClient.propertyTypeFilter, h]
  · intro h
    simp [BooliGraphQLClient.buildSearchInput, BooliGraphQLClient.propertyTypeFilter, h]
  · intro h1 h2 p hp hk
    have hmem := filters_objectType_mem hp hk
    simp [BooliGraphQLClient.propertyTypeFilter, h1, h2] at hmem

/-- C3, witness: the three cases at concrete criteria values. -/
theorem claim3_propertyType_witness :
    (({ key := "objectType", value := "Lägenhet" } : FilterPair) ∈
      (BooliGraphQLClient.buildSearchInput { propertyType := some "apartment" }).filters) ∧
    (({ key := "objectType", value := "Villa" } : FilterPair) ∈
      (BooliGraphQLClient.buildSearchInput { propertyType := some "house" }).filters) ∧
    (∀ p ∈ (BooliGraphQLClient.buildSearchInput { propertyType := some "townhouse" }).filters,
      p.key ≠ "objectType") :=
  ⟨(claim3_propertyType _).1 rfl, (claim3_propertyType _).2.1 rfl,
    (claim3_propertyType _).2.2 (by decide) (by decide)⟩

/-- C4: for a present non-empty location string the area id is exactly that
string, independently of which branch (all digits versus free text) of the
location handling is taken. -/
theorem claim4_location_branches (c : SearchCriteria) (s : String)
    (hloc : c.location = some s) (hne : s ≠ "") :
    (BooliGraphQLClient.buildSearchInput c).areaId = some s ∧
    BooliGraphQLClient.locationAreaId (some s) = some s := by
  have hb : (s == "") = false := by simp [hne]
  refine ⟨?_, ?_⟩
  · simp [BooliGraphQLClient.buildSearchInput, BooliGraphQLClient.locationAreaId, hloc, hb]
  · simp [BooliGraphQLClient.locationAreaId, hb]

/-- C4, witness: one all-digits location and one free-text location. -/
theorem claim4_location_branches_witness :
    (BooliGraphQLClient.buildSearchInput { location := some "509" }).areaId = some "509" ∧
    (BooliGraphQLClient.buildSearchInput { location := some "Nacka" }).areaId = some "Nacka" :=
  ⟨(claim4_location_branches _ _ rfl (by decide)).1,
   (claim4_location_branches _ _ rfl (by decide)).1⟩

theorem isAllDigits_length_ne {s : String} (h : isAllDigits s = true) :
    (s.length == 0) = false := by
  cases s with
  | mk data =>
    cases data with
    | nil => simp [isAllDigits] at h
    | cons a l => simp [String.length]

theorem isAllDigits_ne_empty {pid : String} (h : isAllDigits (jsTrim pid) = true) :
    (pid == "") = false := by
  by_cases hp : pid = ""
  · subst hp
    exact absurd h (by decide)
  · simp [hp]

/-- C5: for every syntactically valid numeric property id, the
`get_property_details` tool issues no network request and returns the
explanatory unsupported-operation guidance (success envelope) naming the
limitation and the `search_locations` / `search_properties` workflow, and the
client-level `getPropertyDetails` fails unconditionally with the
unsupported-operation error, without issuing any request. -/
theorem claim5_never_direct_lookup (pid : String)
    (h : isAllDigits (jsTrim pid) = true) :
    (Tools.getPropertyDetails { propertyId := some pid }).1 = [] ∧
    (Tools.getPropertyDetails { propertyId := some pid }).2.isError = false ∧
    (Tools.getPropertyDetails { propertyId := some pid }).2.content =
      [{ type := "text", text := Tools.propertyDetailGuidance (jsTrim pid) }] ∧
    strContains (Tools.propertyDetailGuidance (jsTrim pid)) "direct property lookup by ID" ∧
    strContains (Tools.propertyDetailGuidance (jsTrim pid)) "is not supported" ∧
    strContains (Tools.propertyDetailGuidance (jsTrim pid)) "search_locations" ∧
    strContains (Tools.propertyDetailGuidance (jsTrim pid)) "search_properties" ∧
    (BooliGraphQLClient.getPropertyDetails (jsTrim pid)).1 = [] ∧
    ∃ e, (BooliGraphQLClient.getPropertyDetails (jsTrim pid)).2 = Except.error e ∧
      strContains e "not supported" := by
  have hne : (pid == "") = false := isAllDigits_ne_empty h
  have hlen : ((jsTrim pid).length == 0) = false := isAllDigits_length_ne h
  refine ⟨?_, ?_, ?_, ?_, ?_, ?_, ?_, ?_, ?_⟩
  · simp [Tools.getPropertyDetails, hne, hlen, h, BooliGraphQLClient.getPropertyDetails]
  · simp [Tools.getPropertyDetails, hne, hlen, h, BooliGraphQLClient.getPropertyDetails]
  · simp [Tools.getPropertyDetails, hne, hlen, h, BooliGraphQLClient.getPropertyDetails]
  · rw [Tools.propertyDetailGuidance]
    exact strContains_append_left _ (strContains_append_left _
      (strContains_of_containsSub (by decide)))
  · rw [Tools.propertyDetailGuidance]
    exact strContains_append_right _ (strContains_of_containsSub (by decide))
  · rw [Tools.propertyDetailGuidance]
    exact strContains_append_right _ (strContains_of_containsSub (by decide))
  · rw [Tools.propertyDetailGuidance]
    exact strContains_append_right _ (strContains_of_containsSub (by decide))
  · rfl
  · refine ⟨_, rfl, ?_⟩
    exact strContains_append_left _ (strContains_append_left _
      (strContains_of_containsSub (by decide)))

/-- C5, witness: the valid numeric property id `"12345"`. -/
theorem claim5_never_direct_lookup_witness :
    (Tools.getPropertyDetails { propertyId := some "12345" }).1 = [] ∧
    (Tools.getPropertyDetails { propertyId := some "12345" }).2.isError = false ∧
    (Tools.getPropertyDetails { propertyId := some "12345" }).2.content =
      [{ type := "text", text := Tools.propertyDetailGuidance (jsTrim "12345") }] ∧
    strContains (Tools.propertyDetailGuidance (jsTrim "12345")) "direct property lookup by ID" ∧
    strContains (Tools.propertyDetailGuidance (jsTrim "12345")) "is not supported" ∧
    strContains (Tools.propertyDetailGuidance (jsTrim "12345")) "search_locations" ∧
    strContains (Tools.propertyDetailGuidance (jsTrim "12345")) "search_properties" ∧
    (BooliGraphQLClient.getPropertyDetails (jsTrim "12345")).1 = [] ∧
    ∃ e, (BooliGraphQLClient.getPropertyDetails (jsTrim "12345")).2 = Except.error e ∧
      strContains e "not supported" :=
  claim5_never_direct_lookup "12345" (by decide)

/-- C6: a `search_properties` call whose upstream response has an empty
result list returns a success envelope (no error indicator) with a
no-matches message that echoes the requested location, falling back to the
phrase `the specified area` when no location was provided. -/
theorem claim6_no_matches (net : SearchInput → Except String SearchForSaleData)
    (args : Tools.SearchPropertiesArgs) (d : SearchForSaleData)
    (hnet : net (BooliGraphQLClient.buildSearchInput (Tools.criteriaOf args)) = Except.ok d)
    (hres : d.result = []) :
    (Tools.searchProperties net args).2.isError = false ∧
    (Tools.searchProperties net args).2.content =
      [{ type := "text",
         text := "No properties found matching your criteria in " ++
           orDefault args.location "the specified area" ++ "." }] ∧
    strContains ("No properties found matching your criteria in " ++
      orDefault args.location "the specified area" ++ ".") "No properties found" ∧
    (args.location = none →
      strContains ("No properties found matching your criteria in " ++
        orDefault args.location "the specified area" ++ ".") "the specified area") ∧
    (∀ s, args.location = some s →
      strContains ("No properties found matching your criteria in " ++
        orDefault args.location "the specified area" ++ ".") s) := by
  have hloc : (Tools.criteriaOf args).location = args.location := rfl
  refine ⟨?_, ?_, ?_, ?_, ?_⟩
  · simp [Tools.searchProperties, BooliGraphQLClient.searchForSale, hnet, hres]
  · simp [Tools.searchProperties, BooliGraphQLClient.searchForSale, hnet, hres, hloc]
  · exact strContains_append_left _ (strContains_append_left _
      (strContains_of_containsSub (by decide)))
  · intro hl
    rw [hl]
    exact ⟨"No properties found matching your criteria in ", ".", rfl⟩
  · intro s hs
    rw [hs]
    by_cases he : s = ""
    · subst he
      exact strContains_empty _
    · have hb : (s == "") = false := by simp [he]
      simp only [orDefault, hb, Bool.false_eq_true, if_false]
      exact strContains_append_left _ (strContains_append_right _ (strContains_refl s))

/-- C6, witness: an empty result with a provided location and without one. -/
theorem claim6_no_matches_witness :
    ((Tools.searchProperties (fun _ => Except.ok {}) { location := some "Ektorp" }).2.isError
        = false ∧
      (Tools.searchProperties (fun _ => Except.ok {}) { location := some "Ektorp" }).2.content =
        [{ type := "text",
           text := "No properties found matching your criteria in " ++
             orDefault (some "Ektorp") "the specified area" ++ "." }]) ∧
    ((Tools.searchProperties (fun _ => Except.ok {}) {}).2.isError = false ∧
      strContains ("No properties found matching your criteria in " ++
        orDefault (none : Option String) "the specified area" ++ ".") "the specified area") := by
  have h1 := claim6_no_matches (fun _ => Except.ok {}) { location := some "Ektorp" } {} rfl rfl
  have h2 := claim6_no_matches (fun _ => Except.ok {}) {} {} rfl rfl
  exact ⟨⟨h1.1, h1.2.1⟩, ⟨h2.1, h2.2.2.2.1 rfl⟩⟩

/-- C7: a `search_locations` call whose query is missing, empty, all
whitespace or shorter than two characters after trimming fails local
validation: the error indicator is set, the message is corrective, and no
network request is issued. -/
theorem claim7_short_query (net : String → Except String AreaSuggestionSearch)
    (args : Tools.SearchLocationsArgs)
    (h : ∀ q, args.query = some q → (jsTrim q).length < 2) :
    (Tools.searchLocations net args).1 = [] ∧
    (Tools.searchLocations net args).2.isError = true ∧
    ∃ t, (Tools.searchLocations net args).2.content = [{ type := "text", text := t }] ∧
      strContains t "Error:" := by
  cases hq : args.query with
  | none =>
    refine ⟨by simp [Tools.searchLocations, hq], by simp [Tools.searchLocations, hq], ?_⟩
    refine ⟨"Error: Query parameter is required and must be a non-empty string.",
      by simp [Tools.searchLocations, hq], ?_⟩
    exact strContains_of_containsSub (by decide)
  | some q =>
    have hlt : (jsTrim q).length < 2 := h q hq
    by_cases h0 : q == ""
    · refine ⟨by simp [Tools.searchLocations, hq, h0], by simp [Tools.searchLocations, hq, h0], ?_⟩
      refine ⟨"Error: Query parameter is required and must be a non-empty string.",
        by simp [Tools.searchLocations, hq, h0], ?_⟩
      exact strContains_of_containsSub (by decide)
    · by_cases hz : ((jsTrim q).length == 0) = true
      · refine ⟨by simp [Tools.searchLocations, hq, h0, hz],
          by simp [Tools.searchLocations, hq, h0, hz], ?_⟩
        refine ⟨"Error: Search query cannot be empty.",
          by simp [Tools.searchLocations, hq, h0, hz], ?_⟩
        exact strContains_of_containsSub (by decide)
      · have hz' : ((jsTrim q).length == 0) = false := by
          cases hb : ((jsTrim q).length == 0) with
          | false => rfl
          | true => exact absurd hb hz
        refine ⟨by simp [Tools.searchLocations, hq, h0, hz', hlt],
          by simp [Tools.searchLocations, hq, h0, hz', hlt], ?_⟩
        refine ⟨"Error: Search query must be at least 2 characters long.",
          by simp [Tools.searchLocations, hq, h0, hz', hlt], ?_⟩
        exact strContains_of_containsSub (by decide)

/-- C7, witness: the one-character query `"a"` with some network oracle. -/
theorem claim7_short_query_witness :
    (Tools.searchLocations (fun _ => Except.ok {}) { query := some "a" }).1 = [] ∧
    (Tools.searchLocations (fun _ => Except.ok {}) { query := some "a" }).2.isError = true ∧
    ∃ t, (Tools.searchLocations (fun _ => Except.ok {}) { query := some "a" }).2.content =
        [{ type := "text", text := t }] ∧
      strContains t "Error:" :=
  claim7_short_query (fun _ => Except.ok {}) { query := some "a" }
    (fun q hq => by cases hq; decide)

theorem resolveLimit_pos (l : Option Nat) : 0 < resolveLimit l := by
  cases l with
  | none => decide
  | some n =>
    by_cases hn : n = 0
    · subst hn; decide
    · simp [resolveLimit, hn]
      omega

theorem jsTrim_ne_empty {q : String} (h : 2 ≤ (jsTrim q).length) : (q == "") = false := by
  by_cases hq : q = ""
  · subst hq
    exact absurd h (by decide)
  · simp [hq]

theorem locationsSummary_marker {total limit : Nat} (q : String) (h : limit < total) :
    strContains (Tools.locationsSummary total limit q)
      (" (showing first " ++ toString limit ++ ")") := by
  unfold Tools.locationsSummary
  dsimp only
  rw [if_pos h]
  exact strContains_append_left _ (strContains_append_right _ (strContains_refl _))

theorem locationsSummary_found (total limit : Nat) (q : String) :
    strContains (Tools.locationsSummary total limit q) ("Found " ++ toString total) := by
  unfold Tools.locationsSummary
  dsimp only
  apply strContains_append_left
  split
  · exact strContains_append_left _ (strContains_append_left _ (strContains_append_left _
      (strContains_append_left _ (strContains_refl _))))
  · exact strContains_append_left _ (strContains_append_left _
      (strContains_append_left _ (strContains_refl _)))

theorem locationsSummary_no_marker (total limit : Nat) (q : String) (h : ¬ limit < total) :
    Tools.locationsSummary total limit q =
      ("Found " ++ toString total ++ " location suggestions for \"" ++ q ++ "\"") ++ ":\n\n" := by
  unfold Tools.locationsSummary
  dsimp only
  rw [if_neg h]

theorem propertiesSummary_marker {total : Int} (loc : Option String) {limit : Nat}
    (h : (limit : Int) < total) :
    strContains (Tools.propertiesSummary total loc limit)
      (" (showing first " ++ toString limit ++ ")") := by
  unfold Tools.propertiesSummary
  dsimp only
  rw [if_pos h]
  exact strContains_append_left _ (strContains_append_right _ (strContains_refl _))

theorem propertiesSummary_found (total : Int) (loc : Option String) (limit : Nat) :
    strContains (Tools.propertiesSummary total loc limit) ("Found " ++ toString total) := by
  unfold Tools.propertiesSummary
  dsimp only
  apply strContains_append_left
  split
  · apply strContains_append_left
    split
    · exact strContains_append_left _ (strContains_append_left _ (strContains_refl _))
    · exact strContains_append_left _ (strContains_refl _)
  · split
    · exact strContains_append_left _ (strContains_append_left _ (strContains_refl _))
    · exact strContains_append_left _ (strContains_refl _)

theorem propertiesSummary_no_marker (total : Int) (loc : Option String) (limit : Nat)
    (h : ¬ ((limit : Int) < total)) :
    Tools.propertiesSummary total loc limit =
      (if truthyStr loc then
        "Found " ++ toString total ++ " properties" ++ (" in " ++ loc.getD "")
      else "Found " ++ toString total ++ " properties") ++ ":\n\n" := by
  unfold Tools.propertiesSummary
  dsimp only
  rw [if_neg h]

/-- C8: when the result list is longer than the requested limit, both tools
render exactly `limit` entries, the summary states the true total count, and
the `showing first` marker appears exactly when the limit is below the total
count (when it is not, the summary is the plain unmarked form). -/
theorem claim8_truncation :
    (∀ (net : String → Except String AreaSuggestionSearch)
      (args : Tools.SearchLocationsArgs) (q : String) (d : AreaSuggestionSearch),
      args.query = some q →
      2 ≤ (jsTrim q).length →
      net (jsTrim q) = Except.ok d →
      resolveLimit args.limit < d.suggestions.length →
      (Tools.searchLocations net args).2.isError = false ∧
      (Tools.searchLocations net args).2.content =
        [{ type := "text",
           text := Tools.locationsSummary d.suggestions.length (resolveLimit args.limit)
               (jsTrim q) ++
             String.intercalate "\n\n"
               ((d.suggestions.take (resolveLimit args.limit)).mapIdx Tools.formatLocation) ++
             Tools.locationsUsageHint }] ∧
      ((d.suggestions.take (resolveLimit args.limit)).mapIdx Tools.formatLocation).length =
        resolveLimit args.limit ∧
      strContains
        (Tools.locationsSummary d.suggestions.length (resolveLimit args.limit) (jsTrim q))
        (" (showing first " ++ toString (resolveLimit args.limit) ++ ")") ∧
      strContains
        (Tools.locationsSummary d.suggestions.length (resolveLimit args.limit) (jsTrim q))
        ("Found " ++ toString d.suggestions.length)) ∧
    (∀ (total limit : Nat) (q : String), ¬ limit < total →
      Tools.locationsSummary total limit q =
        ("Found " ++ toString total ++ " location suggestions for \"" ++ q ++ "\"") ++ ":\n\n") ∧
    (∀ (net : SearchInput → Except String SearchForSaleData)
      (args : Tools.SearchPropertiesArgs) (d : SearchForSaleData),
      net (BooliGraphQLClient.buildSearchInput (Tools.criteriaOf args)) = Except.ok d →
      resolveLimit args.limit < d.result.length →
      (Tools.searchProperties net args).2.isError = false ∧
      (Tools.searchProperties net args).2.content =
        [{ type := "text",
           text := Tools.propertiesSummary d.totalCount args.location (resolveLimit args.limit) ++
             String.intercalate "\n\n"
               ((d.result.take (resolveLimit args.limit)).mapIdx Tools.formatProperty) }] ∧
      ((d.result.take (resolveLimit args.limit)).mapIdx Tools.formatProperty).length =
        resolveLimit args.limit ∧
      ((resolveLimit args.limit : Int) < d.totalCount →
        strContains
          (Tools.propertiesSummary d.totalCount args.location (resolveLimit args.limit))
          (" (showing first " ++ toString (resolveLimit args.limit) ++ ")")) ∧
      strContains
        (Tools.propertiesSummary d.totalCount args.location (resolveLimit args.limit))
        ("Found " ++ toString d.totalCount)) ∧
    (∀ (total : Int) (loc : Option String) (limit : Nat), ¬ ((limit : Int) < total) →
      Tools.propertiesSummary total loc limit =
        (if truthyStr loc then
          "Found " ++ toString total ++ " properties" ++ (" in " ++ loc.getD "")
        else "Found " ++ toString total ++ " properties") ++ ":\n\n") := by
  refine ⟨?_, locationsSummary_no_marker, ?_, propertiesSummary_no_marker⟩
  · intro net args q d hq hlen hnet hgt
    have h0 : (q == "") = false := jsTrim_ne_empty hlen
    have hz : ((jsTrim q).length == 0) = false := by
      simp only [beq_eq_false_iff_ne, ne_eq]
      omega
    have hnlt : ¬ ((jsTrim q).length < 2) := by omega
    have hne : (d.suggestions.length == 0) = false := by
      have := resolveLimit_pos args.limit
      simp only [beq_eq_false_iff_ne, ne_eq]
      omega
    refine ⟨?_, ?_, ?_, ?_, ?_⟩
    · simp [Tools.searchLocations, hq, h0, hz, hnlt, BooliGraphQLClient.searchLocations, hnet, hne]
    · simp [Tools.searchLocations, hq, h0, hz, hnlt, BooliGraphQLClient.searchLocations, hnet, hne]
    · simp only [List.length_mapIdx, List.length_take]
      omega
    · exact locationsSummary_marker _ hgt
    · exact locationsSummary_found _ _ _
  · intro net args d hnet hgt
    have hloc : (Tools.criteriaOf args).location = args.location := rfl
    have hne : (d.result.length == 0) = false := by
      have := resolveLimit_pos args.limit
      simp only [beq_eq_false_iff_ne, ne_eq]
      omega
    refine ⟨?_, ?_, ?_, ?_, ?_⟩
    · simp [Tools.searchProperties, BooliGraphQLClient.searchForSale, hnet, hne]
    · simp [Tools.searchProperties, BooliGraphQLClient.searchForSale, hnet, hne, hloc]
    · simp only [List.length_mapIdx, List.length_take]
      omega
    · intro hlt
      exact propertiesSummary_marker _ hlt
    · exact propertiesSummary_found _ _ _

/-- C8, witness: both tools with three-entry results and limit two, plus the
unmarked summaries when the limit is not below the total count. -/
theorem claim8_truncation_witness :
    (Tools.searchLocations (fun _ => Except.ok d8L) args8L).2.isError = false ∧
    ((d8L.suggestions.take (resolveLimit args8L.limit)).mapIdx Tools.formatLocation).length =
      resolveLimit args8L.limit ∧
    strContains
      (Tools.locationsSummary d8L.suggestions.length (resolveLimit args8L.limit) (jsTrim "sto"))
      (" (showing first " ++ toString (resolveLimit args8L.limit) ++ ")") ∧
    Tools.locationsSummary 2 5 "ab" =
      ("Found " ++ toString (2 : Nat) ++ " location suggestions for \"" ++ "ab" ++ "\"") ++
        ":\n\n" ∧
    (Tools.searchProperties (fun _ => Except.ok d8P) args8P).2.isError = false ∧
    ((d8P.result.take (resolveLimit args8P.limit)).mapIdx Tools.formatProperty).length =
      resolveLimit args8P.limit ∧
    strContains
      (Tools.propertiesSummary d8P.totalCount args8P.location (resolveLimit args8P.limit))
      (" (showing first " ++ toString (resolveLimit args8P.limit) ++ ")") ∧
    Tools.propertiesSummary 2 none 5 =
      (if truthyStr (none : Option String) = true then
        "Found " ++ toString (2 : Int) ++ " properties" ++
          (" in " ++ (none : Option String).getD "")
      else "Found " ++ toString (2 : Int) ++ " properties") ++ ":\n\n" := by
  have hL := claim8_truncation.1 (fun _ => Except.ok d8L) args8L "sto" d8L rfl (by decide)
    rfl (by decide)
  have hP := claim8_truncation.2.2.1 (fun _ => Except.ok d8P) args8P d8P rfl (by decide)
  exact ⟨hL.1, hL.2.2.1, hL.2.2.2.1, claim8_truncation.2.1 2 5 "ab" (by omega),
    hP.1, hP.2.2.1, hP.2.2.2.1 (by decide), claim8_truncation.2.2.2 2 none 5 (by decide)⟩

/-- C9: when the upstream call fails, `search_properties` returns the uniform
error envelope (error indicator set, a single text block and no result
entries), the original failure message appears verbatim behind the two fixed
prefixes, and exactly one request was attempted. -/
theorem claim9_transport_error (net : SearchInput → Except String SearchForSaleData)
    (args : Tools.SearchPropertiesArgs) (e : String)
    (hnet : net (BooliGraphQLClient.buildSearchInput (Tools.criteriaOf args)) =
      Except.error e) :
    (Tools.searchProperties net args).1 =
      [BooliGraphQLClient.buildSearchInput (Tools.criteriaOf args)] ∧
    (Tools.searchProperties net args).1.length = 1 ∧
    (Tools.searchProperties net args).2.isError = true ∧
    (Tools.searchProperties net args).2.content =
      [{ type := "text",
         text := "Error searching for properties: " ++ ("Failed to search properties: " ++ e) }] ∧
    strContains ("Error searching for properties: " ++ ("Failed to search properties: " ++ e)) e := by
  refine ⟨?_, ?_, ?_, ?_, ?_⟩
  · simp [Tools.searchProperties, BooliGraphQLClient.searchForSale, hnet]
  · simp [Tools.searchProperties, BooliGraphQLClient.searchForSale, hnet]
  · simp [Tools.searchProperties, BooliGraphQLClient.searchForSale, hnet]
  · simp [Tools.searchProperties, BooliGraphQLClient.searchForSale, hnet]
  · exact strContains_append_right _ (strContains_append_right _ (strContains_refl e))

/-- C9, witness: a network oracle that always fails with message `boom`. -/
theorem claim9_transport_error_witness :
    (Tools.searchProperties (fun _ => Except.error "boom") {}).1 =
      [BooliGraphQLClient.buildSearchInput (Tools.criteriaOf {})] ∧
    (Tools.searchProperties (fun _ => Except.error "boom") {}).1.length = 1 ∧
    (Tools.searchProperties (fun _ => Except.error "boom") {}).2.isError = true ∧
    (Tools.searchProperties (fun _ => Except.error "boom") {}).2.content =
      [{ type := "text",
         text := "Error searching for properties: " ++ ("Failed to search properties: " ++ "boom") }] ∧
    strContains ("Error searching for properties: " ++ ("Failed to search properties: " ++ "boom"))
      "boom" :=
  claim9_transport_error (fun _ => Except.error "boom") {} "boom" rfl

/-- C10: in both tools a caller-supplied limit of `0` behaves exactly like an
absent limit (the `args.limit || 10` fallback), and the effective limit is
always positive, so no call can request zero displayed entries. -/
theorem claim10_zero_limit :
    (∀ (net : String → Except String AreaSuggestionSearch) (args : Tools.SearchLocationsArgs),
      Tools.searchLocations net { args with limit := some 0 } =
        Tools.searchLocations net { args with limit := none }) ∧
    (∀ (net : SearchInput → Except String SearchForSaleData) (args : Tools.SearchPropertiesArgs),
      Tools.searchProperties net { args with limit := some 0 } =
        Tools.searchProperties net { args with limit := none }) ∧
    (resolveLimit (some 0) = 10 ∧ resolveLimit none = 10) ∧
    (∀ l : Option Nat, 0 < resolveLimit l) := by
  refine ⟨?_, ?_, ⟨rfl, rfl⟩, ?_⟩
  · intro net args
    cases args
    rfl
  · intro net args
    cases args
    rfl
  · intro l
    cases l with
    | none => decide
    | some n =>
      by_cases hn : n = 0
      · subst hn; decide
      · simp [resolveLimit, hn]
        omega
